import Mathlib

/-!
A shallow embedding of the `BlockchainState` ledger-state synchronizer
(`src/unnamed/part_001`) and of its entity store, together with theorems
checking the repository's specification against the code.

Conventions of the embedding:
* JavaScript `null` is `Option.none`; the `_err` field holds `Option String`
  because the source stores either `null` or a string error code.
* Asynchronous calls to the ledger (network detection, contract resolution,
  entity fetch) are modelled as an explicit environment `Env` supplying each
  call's result; a call that throws is an `Except.error` carrying the thrown
  error's string form (the source only ever inspects `err` via the string
  interpolation in the catch handler).
* The single-threaded `await` sequencing of the source is modelled by
  explicit state passing; each run additionally emits a trace of abstract
  `BootAction`s (store clear, per-index fetch-and-add, fake-request add, watcher
  registration, coarse update notification) used for the temporal claims.
-/

/-- The null address sentinel (`NULL_ADDRESS`, part_001 line 12). -/
def NULL_ADDRESS : String := "0x0000000000000000000000000000000000000000"

/-- A ledger entity in the shape produced by `_convertRequestArrToObj`. -/
structure Request where
  requesterName : String
  valentineName : String
  customMessage : String
  wasAccepted : Bool
  valentineAddress : String
  requesterAddress : String
deriving Repr, DecidableEq

/-- The positional wire form of a request, as returned by the ledger calls
`getRequestByIndex` / `getRequestByRequesterAddress`: a six-element array
whose fields are accessed by position (`requestArr[0]` .. `requestArr[5]`). -/
structure RequestArr where
  pos0 : String
  pos1 : String
  pos2 : String
  pos3 : Bool
  pos4 : String
  pos5 : String
deriving Repr, DecidableEq

/-- `_convertRequestArrToObj` (part_001 lines 253-263): positional decode. -/
def convertRequestArrToObj (requestArr : RequestArr) : Request :=
  { requesterName := requestArr.pos0
    valentineName := requestArr.pos1
    customMessage := requestArr.pos2
    wasAccepted := requestArr.pos3
    valentineAddress := requestArr.pos4
    requesterAddress := requestArr.pos5 }

/-- The `emptyRequestArr` of `_doesRequestExist` (part_001 line 265). -/
def emptyRequestArr : RequestArr :=
  { pos0 := "", pos1 := "", pos2 := "", pos3 := false
    pos4 := NULL_ADDRESS, pos5 := NULL_ADDRESS }

/-- `_doesRequestExist` (part_001 lines 264-267): a request exists iff it is
not (deep-)equal to the decoded empty placeholder. -/
def doesRequestExist (request : Request) : Bool :=
  decide (request ≠ convertRequestArrToObj emptyRequestArr)

/-- The "non-existent" placeholder written out field by field, as the spec
describes it (§3): all three text fields empty, `wasAccepted` false, both
addresses equal to the null sentinel. -/
def placeholderRequest : Request :=
  { requesterName := "", valentineName := "", customMessage := ""
    wasAccepted := false
    valentineAddress := NULL_ADDRESS, requesterAddress := NULL_ADDRESS }

/-- Errors of the entity store's operations (spec §4.1 / §7). -/
inductive StoreError where
  | duplicateKey
  | notFound
deriving Repr, DecidableEq

/-- Modelled from the spec: the Entity Store class (`ValentineRequests`,
imported from `js/valentine_requests`, whose source file is not included
under `src/`). Spec §3/§4.1: an ordered, keyed collection of `Request`s with
insertion order preserved for enumeration, keyed uniquely by
`requesterAddress`. -/
structure ValentineRequests where
  requests : List Request
deriving Repr, DecidableEq

/-- The store as created empty at synchronizer construction. -/
def ValentineRequests.empty : ValentineRequests := ⟨[]⟩

/-- Modelled from the spec (§4.1): `has(address)` is a pure lookup. -/
def ValentineRequests.has (s : ValentineRequests) (address : String) : Bool :=
  s.requests.any (fun r => r.requesterAddress == address)

/-- Modelled from the spec (§4.1): `add(request)` fails with `DuplicateKey`
if the `requesterAddress` is already present, otherwise inserts at the end
of enumeration order. -/
def ValentineRequests.add (s : ValentineRequests) (request : Request) :
    Except StoreError ValentineRequests :=
  if s.has request.requesterAddress then Except.error StoreError.duplicateKey
  else Except.ok ⟨s.requests ++ [request]⟩

/-- Field mutation by name on a `Request`, restricted to the one boolean
field the synchronizer ever mutates (`wasAccepted`); the spec's design note
§9 records that the store's `update` is an open string-keyed setter. -/
def Request.setBoolField (r : Request) (field : String) (value : Bool) : Request :=
  if field == "wasAccepted" then { r with wasAccepted := value } else r

/-- Modelled from the spec (§4.1): `update(address, field, value)` fails
with `NotFound` if the address is absent, otherwise mutates the single
named field of the entry with that key. -/
def ValentineRequests.update (s : ValentineRequests) (address : String)
    (field : String) (value : Bool) : Except StoreError ValentineRequests :=
  if s.has address then
    Except.ok ⟨s.requests.map (fun r =>
      if r.requesterAddress == address then r.setBoolField field value else r)⟩
  else Except.error StoreError.notFound

/-- Modelled from the spec (§4.1): `getAll()` returns the ordered sequence
of requests. -/
def ValentineRequests.getAll (s : ValentineRequests) : List Request :=
  s.requests

/-- Modelled from the spec (§4.1): `clearAll()` empties the mapping. -/
def ValentineRequests.clearAll (_s : ValentineRequests) : ValentineRequests := ⟨[]⟩

/-- The unique-key invariant of the store (spec §3): `requesterAddress` is
unique across the entity store. -/
def uniqueKeys (s : ValentineRequests) : Prop :=
  s.requests.Pairwise (fun a b => a.requesterAddress ≠ b.requesterAddress)

/-- `getRequestIfExistsAsync` (part_001 lines 92-101), parameterised by the
ledger's `getRequestByRequesterAddress` reply for each address: decode the
positional reply and return `none` when the decoded request does not exist
(`_doesRequestExist`), the decoded request otherwise.  The address-validity
assertion at entry is a precondition of the caller, outside this model. -/
def getRequestIfExistsAsync (getRequestByRequesterAddress : String → RequestArr)
    (address : String) : Option Request :=
  let requestArr := getRequestByRequesterAddress address
  let request := convertRequestArrToObj requestArr
  if doesRequestExist request then some request else none

/-- Arguments of a `LogValentineRequestCreated` event (`result.args` in the
creation watcher, part_001 lines 209-221). -/
structure CreatedEventArgs where
  requesterName : String
  valentineName : String
  customMessage : String
  valentineAddress : String
  requesterAddress : String
deriving Repr, DecidableEq

/-- The request the creation handler builds: the event's fields with
`wasAccepted` set to `false` (part_001 lines 215-216). -/
def CreatedEventArgs.toRequest (args : CreatedEventArgs) : Request :=
  { requesterName := args.requesterName
    valentineName := args.valentineName
    customMessage := args.customMessage
    wasAccepted := false
    valentineAddress := args.valentineAddress
    requesterAddress := args.requesterAddress }

/-- Arguments of a `LogRequestAccepted` event (part_001 lines 229-233). -/
structure AcceptedEventArgs where
  requesterAddress : String
deriving Repr, DecidableEq

/-- The `LogValentineRequestCreated` watcher callback (part_001 lines
210-221).  A transport-level delivery error (`err` truthy) is logged and the
callback returns; otherwise the decoded request is added only when the store
does not already contain its `requesterAddress`. -/
def handleLogValentineRequestCreated (s : ValentineRequests)
    (ev : Except String CreatedEventArgs) : ValentineRequests :=
  match ev with
  | Except.error _ => s
  | Except.ok args =>
    let request := args.toRequest
    if !(s.has request.requesterAddress) then
      match s.add request with
      | Except.ok s' => s'
      | Except.error _ => s
    else s

/-- The `LogRequestAccepted` watcher callback (part_001 lines 224-234): on a
delivery error, log and return; otherwise set `wasAccepted` to `true` on the
entry with the event's `requesterAddress` when present, else do nothing. -/
def handleLogRequestAccepted (s : ValentineRequests)
    (ev : Except String AcceptedEventArgs) : ValentineRequests :=
  match ev with
  | Except.error _ => s
  | Except.ok eventData =>
    if s.has eventData.requesterAddress then
      match s.update eventData.requesterAddress "wasAccepted" true with
      | Except.ok s' => s'
      | Except.error _ => s
    else s

/-- One delivery to one of the two live subscriptions. -/
inductive ContractEvent where
  | created : Except String CreatedEventArgs → ContractEvent
  | accepted : Except String AcceptedEventArgs → ContractEvent

/-- Dispatch one event delivery to its watcher callback. -/
def applyContractEvent (s : ValentineRequests) : ContractEvent → ValentineRequests
  | ContractEvent.created ev => handleLogValentineRequestCreated s ev
  | ContractEvent.accepted ev => handleLogRequestAccepted s ev

/-- `true` iff `needle` occurs as a contiguous substring of `haystack`
(the lodash `_.includes(errMsg, ...)` test of part_001 line 137). -/
def strContains (haystack needle : String) : Bool :=
  haystack.data.tails.any (fun t => needle.data.isPrefixOf t)

/-- Error code set on recovery-relevant paths (part_001 lines 109, 138, 142,
146): the four string codes the source assigns to `this._err`. -/
def NO_WEB3_INSTANCE_FOUND : String := "NO_WEB3_INSTANCE_FOUND"

def CONTRACT_NOT_DEPLOYED_ON_NETWORK : String := "CONTRACT_NOT_DEPLOYED_ON_NETWORK"

def UNHANDLED_ERROR : String := "UNHANDLED_ERROR"

def DISCONNECTED_FROM_ETHEREUM_NODE : String := "DISCONNECTED_FROM_ETHEREUM_NODE"

/-- The catch handler's classification of a caught error's string form
(part_001 lines 136-143). -/
def classifyContractError (errMsg : String) : String :=
  if strContains errMsg "not been deployed to detected network" then
    CONTRACT_NOT_DEPLOYED_ON_NETWORK
  else
    UNHANDLED_ERROR

/-- The string form a thrown store error takes when caught (`${err}` in the
catch handler).  Modelled from the spec (§4.1/§7): the store's source file
is not under `src/`; its `DuplicateKey`/`NotFound` failures fail loudly, and
their messages do not mention contract deployment. -/
def storeErrorMessage : StoreError → String
  | StoreError.duplicateKey => "Error: ValentineRequests: duplicate requesterAddress key"
  | StoreError.notFound => "Error: ValentineRequests: no request with this requesterAddress"

/-- Abstract steps a boot run emits, in execution order. -/
inductive BootAction where
  | clearStore
  | fetchAdd (index : Nat)
  | fakeAdd
  | registerCreatedWatcher
  | registerAcceptedWatcher
  | onUpdated
deriving Repr, DecidableEq

/-- The environment of one boot attempt: the result of each external call
the synchronizer makes.  Failing calls are `Except.error` carrying the
thrown error's string form.  The ten pseudo-random fake requests built by
`_createFakeRequests(10)` are abstracted as an environment-supplied list
(their random letters play no role in any claim). -/
structure Env where
  networkIdIfExists : Option Nat
  deployed : Except String Unit
  numRequesters : Except String Nat
  getRequestByIndex : Nat → Except String RequestArr
  fakeRequests : List Request

/-- The fetch loop of `_getExistingRequestsAsync` (part_001 lines 155-159):
`remaining` iterations left, `index` the current loop counter.  Each
iteration fetches the wire form at `index`, decodes it, and adds it to the
store; a throwing fetch or add aborts the loop with that error. -/
def loadLoop (env : Env) : Nat → Nat → ValentineRequests →
    ValentineRequests × List BootAction × Option String
  | 0, _, s => (s, [], none)
  | Nat.succ remaining, index, s =>
    match env.getRequestByIndex index with
    | Except.error msg => (s, [], some msg)
    | Except.ok requestArr =>
      match s.add (convertRequestArrToObj requestArr) with
      | Except.error e => (s, [], some (storeErrorMessage e))
      | Except.ok s' =>
        let rest := loadLoop env remaining (index + 1) s'
        (rest.1, BootAction.fetchAdd index :: rest.2.1, rest.2.2)

/-- `_getExistingRequestsAsync` (part_001 lines 151-160): clear the store
first, then query `numRequesters` and run the fetch loop from index 0.
Returns the store, the emitted trace, and the thrown error if any. -/
def getExistingRequestsAsync (env : Env) (s : ValentineRequests) :
    ValentineRequests × List BootAction × Option String :=
  let s0 := s.clearAll
  match env.numRequesters with
  | Except.error msg => (s0, [BootAction.clearStore], some msg)
  | Except.ok n =>
    let rest := loadLoop env n 0 s0
    (rest.1, BootAction.clearStore :: rest.2.1, rest.2.2)

/-- `_createFakeRequests` (part_001 lines 179-183, 189-199): add each
generated fake request to the store via the store's `add`; an add that
throws (duplicate pseudo-random address) aborts with that error. -/
def addFakeRequests : List Request → ValentineRequests →
    ValentineRequests × List BootAction × Option String
  | [], s => (s, [], none)
  | r :: restFakes, s =>
    match s.add r with
    | Except.error e => (s, [], some (storeErrorMessage e))
    | Except.ok s' =>
      let rest := addFakeRequests restFakes s'
      (rest.1, BootAction.fakeAdd :: rest.2.1, rest.2.2)

/-- The observable state of a `BlockchainState` instance.  `err` mirrors
`this._err` (`none` is JavaScript `null`); `hasRegistry` mirrors whether
`this._valentineRegistry` has been assigned; the two watcher fields hold the
generation number of the active watcher pair, bumped on each
`_startWatchingContractForEvents` call. -/
structure BCState where
  err : Option String
  isLoaded : Bool
  networkId : Option Nat
  hasRegistry : Bool
  valentineRequests : ValentineRequests
  watchGen : Nat
  createdWatcher : Option Nat
  acceptedWatcher : Option Nat
deriving Repr, DecidableEq

/-- The constructor's field initialisation (part_001 lines 15-30). -/
def initialBCState : BCState :=
  { err := none, isLoaded := false, networkId := none, hasRegistry := false
    valentineRequests := ValentineRequests.empty, watchGen := 0
    createdWatcher := none, acceptedWatcher := none }

/-- `hasError` (part_001 lines 31-33): `this._err !== null`. -/
def BCState.hasError (st : BCState) : Bool :=
  st.err.isSome

/-- `getError` (part_001 lines 34-36). -/
def BCState.getError (st : BCState) : Option String :=
  st.err

/-- `_startWatchingContractForEvents` (part_001 lines 200-235): stop any
prior watcher pair and install a fresh one (modelled as a new generation
number for both watchers). -/
def startWatchingContractForEvents (st : BCState) : BCState :=
  { st with watchGen := st.watchGen + 1
            createdWatcher := some (st.watchGen + 1)
            acceptedWatcher := some (st.watchGen + 1) }

/-- The `try` block of `_instantiateContractAsync` (part_001 lines 129-135):
resolve the deployed contract, bulk-load existing requests, add the ten fake
requests, then start watching for events.  Returns the state at exit, the
emitted trace, and—when a step threw—the caught error's string form. -/
def tryBlock (env : Env) (st : BCState) : BCState × List BootAction × Option String :=
  match env.deployed with
  | Except.error msg => (st, [], some msg)
  | Except.ok _ =>
    let st1 := { st with hasRegistry := true }
    let load := getExistingRequestsAsync env st1.valentineRequests
    let st2 := { st1 with valentineRequests := load.1 }
    match load.2.2 with
    | some msg => (st2, load.2.1, some msg)
    | none =>
      let fakes := addFakeRequests env.fakeRequests st2.valentineRequests
      let st3 := { st2 with valentineRequests := fakes.1 }
      match fakes.2.2 with
      | some msg => (st3, load.2.1 ++ fakes.2.1, some msg)
      | none =>
        let st4 := startWatchingContractForEvents st3
        (st4, load.2.1 ++ fakes.2.1 ++
          [BootAction.registerCreatedWatcher, BootAction.registerAcceptedWatcher], none)

/-- `_instantiateContractAsync` (part_001 lines 123-150): query the network
id; if absent set the disconnected error, otherwise run the try block and on
a caught error classify it; in every case finish with `isLoaded := true` and
fire the coarse update notification. -/
def instantiateContractAsync (env : Env) (st : BCState) : BCState × List BootAction :=
  let st1 := { st with networkId := env.networkIdIfExists }
  let step :=
    match env.networkIdIfExists with
    | none => ({ st1 with err := some DISCONNECTED_FROM_ETHEREUM_NODE }, ([] : List BootAction))
    | some _ =>
      let tb := tryBlock env st1
      match tb.2.2 with
      | none => (tb.1, tb.2.1)
      | some msg => ({ tb.1 with err := some (classifyContractError msg) }, tb.2.1)
  ({ step.1 with isLoaded := true }, step.2 ++ [BootAction.onUpdated])

/-- `_networkConnectionChangedAsync` (part_001 lines 236-247): a `null`
token sets the disconnected error; a token different from the remembered one
blanks the error to the empty string and re-runs
`_instantiateContractAsync`; in every case the remembered token is then
overwritten with the notification's token and the coarse update fires. -/
def networkConnectionChangedAsync (env : Env) (networkIdIfExists : Option Nat)
    (st : BCState) : BCState × List BootAction :=
  match networkIdIfExists with
  | none =>
    ({ st with err := some DISCONNECTED_FROM_ETHEREUM_NODE, networkId := none },
      [BootAction.onUpdated])
  | some tok =>
    if st.networkId = some tok then
      ({ st with networkId := some tok }, [BootAction.onUpdated])
    else
      let st1 := { st with err := some "" }
      let run := instantiateContractAsync env st1
      ({ run.1 with networkId := some tok }, run.2 ++ [BootAction.onUpdated])

/-- `_onPageLoadInitFireAndForgetAsync` (part_001 lines 102-122) after the
page-load await: if no web3 instance exists, set the no-transport error and
finish loaded; otherwise wrap the current provider, register the
network-change listener, and run `_instantiateContractAsync`. -/
def onPageLoadInit (doesWeb3InstanceExist : Bool) (env : Env) (st : BCState) :
    BCState × List BootAction :=
  if !doesWeb3InstanceExist then
    ({ st with err := some NO_WEB3_INSTANCE_FOUND, isLoaded := true }, [BootAction.onUpdated])
  else
    instantiateContractAsync env st

/-- A watcher callback applied at the synchronizer level: the source
callbacks (part_001 lines 210-234) perform only store operations; the
synchronizer's `_err`/`_isLoaded`/network fields are untouched by them. -/
def applyContractEventState (st : BCState) (e : ContractEvent) : BCState :=
  { st with valentineRequests := applyContractEvent st.valentineRequests e }

/-- `true` iff the store holds an entry with this `requesterAddress` whose
`wasAccepted` flag is set. -/
def wasAcceptedInStore (s : ValentineRequests) (address : String) : Bool :=
  s.requests.any (fun r => r.requesterAddress == address && r.wasAccepted)

/-- Is this step one of the two event-watcher registrations of step 8? -/
def BootAction.isWatcherRegistration : BootAction → Bool
  | BootAction.registerCreatedWatcher => true
  | BootAction.registerAcceptedWatcher => true
  | _ => false

/-- Is this step part of the bulk load of step 7 (the store clear or a
fetch-decode-add of one index)? -/
def BootAction.isBulkLoadStep : BootAction → Bool
  | BootAction.clearStore => true
  | BootAction.fetchAdd _ => true
  | _ => false

/-- `true` iff no bulk-load step occurs anywhere after a watcher
registration in the trace: the bulk load, its store clear included, is
finished before either subscription of the boot is armed. -/
def noBulkLoadAfterRegistration : List BootAction → Bool
  | [] => true
  | a :: rest =>
    ((!a.isWatcherRegistration) || rest.all (fun b => !b.isBulkLoadStep))
      && noBulkLoadAfterRegistration rest

/-- An environment whose ledger reports one requester whose wire form is the
"non-existent" placeholder row. -/
def placeholderLedgerEnv : Env :=
  { networkIdIfExists := some 1
    deployed := Except.ok ()
    numRequesters := Except.ok 1
    getRequestByIndex := fun _ => Except.ok emptyRequestArr
    fakeRequests := [] }

/-- A healthy environment: network 1, contract deployed, empty ledger, no
fake requests. -/
def recoveryEnv : Env :=
  { networkIdIfExists := some 1
    deployed := Except.ok ()
    numRequesters := Except.ok 0
    getRequestByIndex := fun _ => Except.ok emptyRequestArr
    fakeRequests := [] }

/-- The state after a boot that failed with the disconnected error while no
network was detected (part_001 line 146). -/
def disconnectedErrorState : BCState :=
  { err := some DISCONNECTED_FROM_ETHEREUM_NODE, isLoaded := true
    networkId := none, hasRegistry := false
    valentineRequests := ValentineRequests.empty
    watchGen := 0, createdWatcher := none, acceptedWatcher := none }

/-- A sample non-placeholder wire row. -/
def sampleArr : RequestArr :=
  { pos0 := "Alice", pos1 := "Bob", pos2 := "be mine", pos3 := false
    pos4 := NULL_ADDRESS, pos5 := "0x00000000000000000000000000000000000000aa" }

/-- A sample decoded request keyed by address `...aa`. -/
def sampleRequest : Request := convertRequestArrToObj sampleArr

/-- An environment whose ledger reports `sampleArr` as its only entity. -/
def oneEntityEnv : Env :=
  { networkIdIfExists := some 1
    deployed := Except.ok ()
    numRequesters := Except.ok 1
    getRequestByIndex := fun _ => Except.ok sampleArr
    fakeRequests := [] }

/-- An environment where the ledger reports two entities but fetching the
second one throws: the bulk load faults mid-way, after the clear and one
add. -/
def midFailEnv : Env :=
  { networkIdIfExists := some 1
    deployed := Except.ok ()
    numRequesters := Except.ok 2
    getRequestByIndex := fun i => if i = 0 then Except.ok sampleArr
                                  else Except.error "Error: fetch failed"
    fakeRequests := [] }

/-- An environment where contract resolution throws the truffle-contract
"has not been deployed to detected network" failure. -/
def notDeployedEnv : Env :=
  { networkIdIfExists := some 1
    deployed := Except.error
      "Error: ValentineRegistry has not been deployed to detected network"
    numRequesters := Except.ok 0
    getRequestByIndex := fun _ => Except.ok emptyRequestArr
    fakeRequests := [] }

/-- A `Ready` state remembering network 1 and holding one loaded entity,
with the first watcher generation active. -/
def readyState : BCState :=
  { err := none, isLoaded := true, networkId := some 1, hasRegistry := true
    valentineRequests := ⟨[sampleRequest]⟩
    watchGen := 1, createdWatcher := some 1, acceptedWatcher := some 1 }

/-- The store holding only `sampleRequest`. -/
def sampleStore : ValentineRequests := ⟨[sampleRequest]⟩

/-- Acceptance-event arguments referencing `sampleRequest`'s key. -/
def sampleAcceptedArgs : AcceptedEventArgs :=
  { requesterAddress := "0x00000000000000000000000000000000000000aa" }

/-- Creation-event arguments for a fresh address `...bb`. -/
def sampleCreatedArgs : CreatedEventArgs :=
  { requesterName := "Carol", valentineName := "Dave", customMessage := "hey"
    valentineAddress := NULL_ADDRESS
    requesterAddress := "0x00000000000000000000000000000000000000bb" }

/-- The store does not hold an address iff no entry carries it. -/
lemma has_eq_false_iff (s : ValentineRequests) (address : String) :
    s.has address = false ↔ ∀ r ∈ s.requests, r.requesterAddress ≠ address := by
  unfold ValentineRequests.has
  rw [← Bool.not_eq_true, List.any_eq_true]
  push_neg
  simp

/-- `add` on a fresh key appends the request at the end. -/
lemma add_ok_of_not_has (s : ValentineRequests) (r : Request)
    (h : s.has r.requesterAddress = false) :
    s.add r = Except.ok ⟨s.requests ++ [r]⟩ := by
  simp [ValentineRequests.add, h]

/-- Appending a request with a fresh key preserves the unique-key invariant. -/
lemma uniqueKeys_append_single (s : ValentineRequests) (r : Request)
    (hfresh : s.has r.requesterAddress = false) (hu : uniqueKeys s) :
    uniqueKeys ⟨s.requests ++ [r]⟩ := by
  unfold uniqueKeys at hu ⊢
  rw [List.pairwise_append]
  refine ⟨hu, List.pairwise_singleton _ _, ?_⟩
  intro a ha b hb
  rw [List.mem_singleton] at hb
  rw [hb]
  exact (has_eq_false_iff s r.requesterAddress).mp hfresh a ha

/-- One event delivery never downgrades an accepted entry: if the store
holds an accepted entry for an address, it still does after any single
creation or acceptance delivery (including erroneous deliveries). -/
lemma wasAcceptedInStore_mono_step (s : ValentineRequests) (e : ContractEvent)
    (address : String) (h : wasAcceptedInStore s address = true) :
    wasAcceptedInStore (applyContractEvent s e) address = true := by
  cases e with
  | created ev =>
    cases ev with
    | error msg => exact h
    | ok args =>
      by_cases hhas : s.has args.toRequest.requesterAddress = true
      · simp [applyContractEvent, handleLogValentineRequestCreated, hhas]
        exact h
      · rw [Bool.not_eq_true] at hhas
        simp only [applyContractEvent, handleLogValentineRequestCreated, hhas,
          add_ok_of_not_has s args.toRequest hhas, Bool.not_false, if_true]
        unfold wasAcceptedInStore at h ⊢
        rw [List.any_append, h, Bool.true_or]
  | accepted ev =>
    cases ev with
    | error msg => exact h
    | ok eventData =>
      by_cases hhas : s.has eventData.requesterAddress = true
      · simp only [applyContractEvent, handleLogRequestAccepted, hhas, if_true,
          ValentineRequests.update]
        unfold wasAcceptedInStore at h ⊢
        rw [List.any_eq_true] at h
        obtain ⟨r, hmem, hr⟩ := h
        rw [List.any_eq_true]
        refine ⟨if r.requesterAddress == eventData.requesterAddress
                then r.setBoolField "wasAccepted" true else r, ?_, ?_⟩
        · exact List.mem_map.mpr ⟨r, hmem, rfl⟩
        · rw [Bool.and_eq_true] at hr
          by_cases heq : r.requesterAddress == eventData.requesterAddress
          · simp [heq, Request.setBoolField, hr.1]
          · simp [heq, hr.1, hr.2]
      · simp [applyContractEvent, handleLogRequestAccepted, hhas]
        exact h

/-- Acceptance monotonicity extended over any finite sequence of event
deliveries in any order. -/
lemma wasAcceptedInStore_mono_fold :
    ∀ (events : List ContractEvent) (s : ValentineRequests) (address : String),
      wasAcceptedInStore s address = true →
      wasAcceptedInStore (events.foldl applyContractEvent s) address = true := by
  intro events
  induction events with
  | nil => intro s address h; simpa using h
  | cons e rest ih =>
    intro s address h
    exact ih _ address (wasAcceptedInStore_mono_step s e address h)

/-- Every step the fetch loop emits is a `fetchAdd`. -/
lemma loadLoop_trace_fetchAdd (env : Env) :
    ∀ (remaining index : Nat) (s : ValentineRequests) (a : BootAction),
      a ∈ (loadLoop env remaining index s).2.1 → ∃ m, a = BootAction.fetchAdd m := by
  intro remaining
  induction remaining with
  | zero => intro index s a ha; simp [loadLoop] at ha
  | succ k ih =>
    intro index s a ha
    unfold loadLoop at ha
    split at ha
    · simp at ha
    · split at ha
      · simp at ha
      · rename_i s' hadd
        simp only [List.mem_cons] at ha
        rcases ha with h | h
        · exact ⟨index, h⟩
        · exact ih (index + 1) s' a h

/-- The bulk-load trace consists of the store clear followed by fetch
steps; it never contains a watcher registration. -/
lemma getExisting_trace_no_watcher (env : Env) (s : ValentineRequests)
    (a : BootAction) (ha : a ∈ (getExistingRequestsAsync env s).2.1) :
    a.isWatcherRegistration = false := by
  unfold getExistingRequestsAsync at ha
  cases hn : env.numRequesters with
  | error msg =>
    rw [hn] at ha
    simp only [List.mem_singleton] at ha
    rw [ha]; rfl
  | ok n =>
    rw [hn] at ha
    simp only [List.mem_cons] at ha
    rcases ha with h | h
    · rw [h]; rfl
    · obtain ⟨m, rfl⟩ := loadLoop_trace_fetchAdd env n 0 _ a h
      rfl

/-- Every step the fake-request loop emits is a `fakeAdd`. -/
lemma addFakes_trace_fakeAdd :
    ∀ (fakes : List Request) (s : ValentineRequests) (a : BootAction),
      a ∈ (addFakeRequests fakes s).2.1 → a = BootAction.fakeAdd := by
  intro fakes
  induction fakes with
  | nil => intro s a ha; simp [addFakeRequests] at ha
  | cons r rest ih =>
    intro s a ha
    unfold addFakeRequests at ha
    split at ha
    · simp at ha
    · rename_i s' hadd
      simp only [List.mem_cons] at ha
      rcases ha with h | h
      · exact h
      · exact ih s' a h

/-- A trace free of watcher registrations trivially satisfies the ordering
property. -/
lemma noBLAR_of_no_watcher (l : List BootAction)
    (h : ∀ a ∈ l, a.isWatcherRegistration = false) :
    noBulkLoadAfterRegistration l = true := by
  induction l with
  | nil => rfl
  | cons a rest ih =>
    have ha := h a (List.mem_cons_self a rest)
    have hrest := ih (fun b hb => h b (List.mem_cons_of_mem a hb))
    simp [noBulkLoadAfterRegistration, ha, hrest]

/-- Prepending watcher-registration-free steps preserves the ordering
property. -/
lemma noBLAR_append (A B : List BootAction)
    (hA : ∀ a ∈ A, a.isWatcherRegistration = false)
    (hB : noBulkLoadAfterRegistration B = true) :
    noBulkLoadAfterRegistration (A ++ B) = true := by
  induction A with
  | nil => simpa using hB
  | cons a A' ih =>
    have ha := hA a (List.mem_cons_self a A')
    have hrest := ih (fun b hb => hA b (List.mem_cons_of_mem a hb))
    simp [noBulkLoadAfterRegistration, ha, hrest]

/-- Unfolding equation for one iteration of the fetch loop. -/
lemma loadLoop_succ (env : Env) (k index : Nat) (s : ValentineRequests) :
    loadLoop env (k + 1) index s
      = match env.getRequestByIndex index with
        | Except.error msg => (s, [], some msg)
        | Except.ok requestArr =>
          match s.add (convertRequestArrToObj requestArr) with
          | Except.error e => (s, [], some (storeErrorMessage e))
          | Except.ok s' =>
            let rest := loadLoop env k (index + 1) s'
            (rest.1, BootAction.fetchAdd index :: rest.2.1, rest.2.2) := rfl

/-- A fetch loop that finishes without a thrown error appends exactly the
decoded wire rows of its index range, in index order, and preserves the
unique-key invariant. -/
lemma loadLoop_ok (env : Env) (f : Nat → RequestArr) :
    ∀ (remaining index : Nat) (s : ValentineRequests),
      (∀ j, j < remaining → env.getRequestByIndex (index + j) = Except.ok (f (index + j))) →
      (loadLoop env remaining index s).2.2 = none →
      (loadLoop env remaining index s).1.requests
        = s.requests ++ (List.range remaining).map
            (fun j => convertRequestArrToObj (f (index + j))) ∧
      (uniqueKeys s → uniqueKeys (loadLoop env remaining index s).1) := by
  intro remaining
  induction remaining with
  | zero => intro index s hf hok; simp [loadLoop]
  | succ k ih =>
    intro index s hf hok
    have h0 : env.getRequestByIndex index = Except.ok (f index) := by
      have := hf 0 (Nat.succ_pos k)
      simpa using this
    have hfShift : ∀ j, j < k →
        env.getRequestByIndex ((index + 1) + j) = Except.ok (f ((index + 1) + j)) := by
      intro j hj
      have := hf (j + 1) (Nat.succ_lt_succ hj)
      have harith : index + (j + 1) = (index + 1) + j := by omega
      rw [harith] at this
      exact this
    rw [loadLoop_succ] at hok ⊢
    cases hhas : s.has (convertRequestArrToObj (f index)).requesterAddress with
    | true =>
      exfalso
      simp only [h0, ValentineRequests.add, hhas, if_true] at hok
      simp at hok
    | false =>
      simp only [h0, add_ok_of_not_has s _ hhas] at hok ⊢
      obtain ⟨hreq, huniq⟩ :=
        ih (index + 1) ⟨s.requests ++ [convertRequestArrToObj (f index)]⟩ hfShift hok
      constructor
      · rw [hreq, List.append_assoc]
        congr 1
        rw [List.range_succ_eq_map, List.map_cons, List.map_map,
          List.singleton_append, Nat.add_zero]
        congr 1
        congr 1
        funext a
        have harith2 : index + 1 + a = index + (a + 1) := by omega
        simp [Function.comp, harith2, Nat.succ_eq_add_one]
      · intro hu
        exact huniq (uniqueKeys_append_single s _ hhas hu)

/-- The trace of the try block, followed by the final update notification,
never places a bulk-load step after a watcher registration. -/
lemma tryBlock_trace_ordering (env : Env) (st : BCState) :
    noBulkLoadAfterRegistration ((tryBlock env st).2.1 ++ [BootAction.onUpdated]) = true := by
  unfold tryBlock
  cases hD : env.deployed with
  | error msg =>
    simp only [hD]
    decide
  | ok u =>
    simp only [hD]
    cases hL : (getExistingRequestsAsync env st.valentineRequests).2.2 with
    | some msg =>
      simp only [hL]
      refine noBLAR_append _ _ ?_ (by decide)
      intro a ha
      exact getExisting_trace_no_watcher env _ a ha
    | none =>
      simp only [hL]
      cases hF : (addFakeRequests env.fakeRequests
          (getExistingRequestsAsync env st.valentineRequests).1).2.2 with
      | some msg =>
        simp only [hF, List.append_assoc]
        refine noBLAR_append _ _ ?_ ?_
        · intro a ha
          exact getExisting_trace_no_watcher env _ a ha
        · refine noBLAR_append _ _ ?_ (by decide)
          intro a ha
          rw [addFakes_trace_fakeAdd _ _ a ha]
          rfl
      | none =>
        simp only [hF, List.append_assoc]
        refine noBLAR_append _ _ ?_ ?_
        · intro a ha
          exact getExisting_trace_no_watcher env _ a ha
        · refine noBLAR_append _ _ ?_ (by decide)
          intro a ha
          rw [addFakes_trace_fakeAdd _ _ a ha]
          rfl

/-- C9: for every address, `getRequestIfExistsAsync` returns `null` exactly
when the ledger's reply decodes to the "non-existent" placeholder (all three
text fields empty, `wasAccepted` false, both addresses the null sentinel),
and otherwise returns the decoded request; a placeholder is never returned
to the caller as a real entity. -/
theorem getRequestIfExists_placeholder_filter
    (getRequestByRequesterAddress : String → RequestArr) (address : String) :
    (getRequestIfExistsAsync getRequestByRequesterAddress address
      = if convertRequestArrToObj (getRequestByRequesterAddress address)
            = placeholderRequest
        then none
        else some (convertRequestArrToObj (getRequestByRequesterAddress address))) ∧
    getRequestIfExistsAsync getRequestByRequesterAddress address
      ≠ some placeholderRequest := by
  have hp : convertRequestArrToObj emptyRequestArr = placeholderRequest := rfl
  unfold getRequestIfExistsAsync doesRequestExist
  rw [hp]
  by_cases h : convertRequestArrToObj (getRequestByRequesterAddress address)
      = placeholderRequest
  · simp [h]
  · simp [h]

/-- C10: a network-change notification carrying a `null` token sets the
disconnected error kind, nulls the remembered network token, and fires the
coarse update notification, while leaving the entity store, the active
watchers, and the loaded flag untouched — no clear, no reload, no
re-subscription appears in the trace. -/
theorem nullToken_disconnect_no_reload (env : Env) (st : BCState) :
    (networkConnectionChangedAsync env none st).1.err
        = some DISCONNECTED_FROM_ETHEREUM_NODE ∧
    (networkConnectionChangedAsync env none st).1.networkId = none ∧
    (networkConnectionChangedAsync env none st).1.valentineRequests.getAll
        = st.valentineRequests.getAll ∧
    (networkConnectionChangedAsync env none st).1.createdWatcher = st.createdWatcher ∧
    (networkConnectionChangedAsync env none st).1.acceptedWatcher = st.acceptedWatcher ∧
    (networkConnectionChangedAsync env none st).1.isLoaded = st.isLoaded ∧
    (networkConnectionChangedAsync env none st).2 = [BootAction.onUpdated] :=
  ⟨rfl, rfl, rfl, rfl, rfl, rfl, rfl⟩

/-- C6: a network-change notification carrying the same token as the
remembered one, received while `Ready`, is a no-op apart from the coarse
update notification: the resulting state (store contents and active
watchers included) is exactly the prior state, and the trace contains no
store clear, no bulk reload, and no watcher registration. -/
theorem sameToken_notification_noop (env : Env) (st : BCState) (tok : Nat)
    (hTok : st.networkId = some tok)
    (hLoaded : st.isLoaded = true)
    (hNoErr : st.err = none)
    (hWatch : st.createdWatcher.isSome = true) :
    networkConnectionChangedAsync env (some tok) st = (st, [BootAction.onUpdated]) := by
  have hSt : { st with networkId := some tok } = st := by
    cases st
    simp only [BCState.mk.injEq]
    simp_all
  unfold networkConnectionChangedAsync
  simp [hTok, hSt]

/-- C6 witness: a concrete `Ready` state notified with its own token. -/
theorem sameToken_notification_noop_witness :
    networkConnectionChangedAsync recoveryEnv (some 1) readyState
      = (readyState, [BootAction.onUpdated]) :=
  sameToken_notification_noop recoveryEnv readyState 1 rfl rfl rfl rfl

/-- C2: evidence against the claim, evaluated on the code.  From the
disconnected `Error` state, a fresh notification with the new non-null token
1 re-runs the detection/load sequence against a healthy environment; the
load succeeds (watchers armed, loaded flag set), yet the synchronizer's
`_err` is the empty string — set at part_001 line 241 and never reset — so
`hasError()` (`_err !== null`) still reports `true` instead of the `false`
the claim requires for the `Ready` state. -/
theorem recovery_leaves_hasError_true :
    (networkConnectionChangedAsync recoveryEnv (some 1) disconnectedErrorState).1.createdWatcher
        = some 1 ∧
    (networkConnectionChangedAsync recoveryEnv (some 1) disconnectedErrorState).1.acceptedWatcher
        = some 1 ∧
    (networkConnectionChangedAsync recoveryEnv (some 1) disconnectedErrorState).1.isLoaded
        = true ∧
    (networkConnectionChangedAsync recoveryEnv (some 1) disconnectedErrorState).1.err
        = some "" ∧
    (networkConnectionChangedAsync recoveryEnv (some 1) disconnectedErrorState).1.hasError
        = true :=
  ⟨rfl, rfl, rfl, rfl, rfl⟩

/-- C3: in the trace of every boot or reload of the synchronizer, no
bulk-load step (the store clear or a fetch-decode-add) ever occurs after a
watcher registration: the two event watchers are registered only after the
bulk load, its initial clear included, has finished, so no creation or
acceptance callback of the new subscriptions can apply before load
completion. -/
theorem watchers_registered_only_after_bulk_load (env : Env) (st : BCState) :
    noBulkLoadAfterRegistration (instantiateContractAsync env st).2 = true := by
  unfold instantiateContractAsync
  cases hN : env.networkIdIfExists with
  | none =>
    simp only [hN]
    decide
  | some nid =>
    simp only [hN]
    cases hC : (tryBlock env { st with networkId := some nid }).2.2 with
    | none =>
      simp only [hC]
      exact tryBlock_trace_ordering env { st with networkId := some nid }
    | some msg =>
      simp only [hC]
      exact tryBlock_trace_ordering env { st with networkId := some nid }

/-- C7: whenever the try block of contract resolution / bulk load throws,
the stored error becomes the NotDeployed code exactly when the thrown
message contains the "not been deployed to detected network" text, and the
Unhandled code for any other failure — always one of those two fixed codes,
never the failure's verbatim message — and the attempt terminates with the
loaded flag set. -/
theorem contract_failure_classified (env : Env) (st : BCState) (nid : Nat) (msg : String)
    (hNet : env.networkIdIfExists = some nid)
    (hCaught : (tryBlock env { st with networkId := env.networkIdIfExists }).2.2 = some msg) :
    (instantiateContractAsync env st).1.err
      = some (if strContains msg "not been deployed to detected network"
              then CONTRACT_NOT_DEPLOYED_ON_NETWORK
              else UNHANDLED_ERROR) ∧
    (instantiateContractAsync env st).1.isLoaded = true ∧
    ((instantiateContractAsync env st).1.err = some CONTRACT_NOT_DEPLOYED_ON_NETWORK ∨
     (instantiateContractAsync env st).1.err = some UNHANDLED_ERROR) := by
  rw [hNet] at hCaught
  unfold instantiateContractAsync
  simp only [hNet, hCaught, classifyContractError]
  refine ⟨trivial, trivial, ?_⟩
  by_cases h : strContains msg "not been deployed to detected network"
  · left; simp [h]
  · right; simp [h]

/-- C7 witness: a deployment failure whose message carries the marker text
is classified as the NotDeployed code with the loaded flag set. -/
theorem contract_failure_classified_witness :
    (instantiateContractAsync notDeployedEnv initialBCState).1.err
        = some (if strContains "Error: ValentineRegistry has not been deployed to detected network"
                    "not been deployed to detected network"
                then CONTRACT_NOT_DEPLOYED_ON_NETWORK
                else UNHANDLED_ERROR) ∧
    (instantiateContractAsync notDeployedEnv initialBCState).1.isLoaded = true :=
  ⟨(contract_failure_classified notDeployedEnv initialBCState 1
      "Error: ValentineRegistry has not been deployed to detected network" rfl rfl).1,
   (contract_failure_classified notDeployedEnv initialBCState 1
      "Error: ValentineRegistry has not been deployed to detected network" rfl rfl).2.1⟩

/-- C8: entering an `Error` state never clears or removes what was in the
store at the moment of the fault: when no network is detected, or contract
resolution itself fails, the store is exactly what it was before the boot
attempt; when any try-block step throws, the final store equals the store
at the point the exception was raised (the catch handler only classifies
the error); and the no-transport path leaves the store untouched too. -/
theorem error_entry_preserves_store (env : Env) (st : BCState) :
    (env.networkIdIfExists = none →
      (instantiateContractAsync env st).1.valentineRequests = st.valentineRequests) ∧
    (∀ msg : String, env.deployed = Except.error msg →
      (instantiateContractAsync env st).1.valentineRequests = st.valentineRequests) ∧
    (∀ (nid : Nat) (msg : String), env.networkIdIfExists = some nid →
      (tryBlock env { st with networkId := env.networkIdIfExists }).2.2 = some msg →
      (instantiateContractAsync env st).1.valentineRequests
        = (tryBlock env { st with networkId := env.networkIdIfExists }).1.valentineRequests) ∧
    (onPageLoadInit false env st).1.valentineRequests = st.valentineRequests := by
  refine ⟨?_, ?_, ?_, rfl⟩
  · intro hNone
    unfold instantiateContractAsync
    simp only [hNone]
  · intro msg hDep
    unfold instantiateContractAsync
    cases hN : env.networkIdIfExists with
    | none => simp only
    | some nid =>
      simp only
      unfold tryBlock
      simp only [hDep]
  · intro nid msg hNet hCaught
    rw [hNet] at hCaught ⊢
    unfold instantiateContractAsync
    simp only [hNet, hCaught]

/-- C8 witness: a reload whose second fetch throws ends in an error with the
store exactly as it stood at the fault (the clear plus one completed add). -/
theorem error_entry_preserves_store_witness :
    (instantiateContractAsync midFailEnv readyState).1.valentineRequests
      = (tryBlock midFailEnv
          { readyState with networkId := midFailEnv.networkIdIfExists }).1.valentineRequests :=
  (error_entry_preserves_store midFailEnv readyState).2.2.1 1 "Error: fetch failed" rfl rfl

/-- C4: for every acceptance event: if the store contains the referenced
`requesterAddress`, that entry's `wasAccepted` is set to `true` (all other
entries and fields untouched); if not, the store is left unchanged; watcher
callbacks never touch the synchronizer's error or loaded status; and across
every ordering of deliveries `wasAccepted` only ever transitions false to
true — an accepted entry stays accepted. -/
theorem acceptance_event_behaviour (s : ValentineRequests) (eventData : AcceptedEventArgs) :
    (s.has eventData.requesterAddress = true →
      (handleLogRequestAccepted s (Except.ok eventData)).requests
        = s.requests.map (fun r =>
            if r.requesterAddress == eventData.requesterAddress
            then { r with wasAccepted := true } else r)) ∧
    (s.has eventData.requesterAddress = false →
      handleLogRequestAccepted s (Except.ok eventData) = s) ∧
    (∀ (st : BCState) (e : ContractEvent),
      (applyContractEventState st e).err = st.err ∧
      (applyContractEventState st e).isLoaded = st.isLoaded) ∧
    (∀ (events : List ContractEvent) (address : String),
      wasAcceptedInStore s address = true →
      wasAcceptedInStore (events.foldl applyContractEvent s) address = true) := by
  refine ⟨?_, ?_, ?_, ?_⟩
  · intro hhas
    simp only [handleLogRequestAccepted, hhas, if_true, ValentineRequests.update]
    congr 1
  · intro hhas
    simp [handleLogRequestAccepted, hhas]
  · intro st e
    exact ⟨rfl, rfl⟩
  · intro events address h
    exact wasAcceptedInStore_mono_fold events s address h

/-- C4 witness: accepting the sample store's only entry marks it accepted;
an acceptance for an unseen address leaves the store unchanged. -/
theorem acceptance_event_behaviour_witness :
    (handleLogRequestAccepted sampleStore (Except.ok sampleAcceptedArgs)).requests
      = sampleStore.requests.map (fun r =>
          if r.requesterAddress == sampleAcceptedArgs.requesterAddress
          then { r with wasAccepted := true } else r) ∧
    handleLogRequestAccepted sampleStore (Except.ok ⟨"0x1234"⟩) = sampleStore :=
  ⟨(acceptance_event_behaviour sampleStore sampleAcceptedArgs).1 (by decide),
   (acceptance_event_behaviour sampleStore ⟨"0x1234"⟩).2.1 (by decide)⟩

/-- C5: the creation handler adds the event's request, with
`wasAccepted = false`, only when the store does not already contain its
`requesterAddress`; it is idempotent, so delivering the same creation event
twice (or one replaying an entity captured by the bulk load) never produces
two entries with the same key, and it preserves the unique-key invariant. -/
theorem creation_event_idempotent (s : ValentineRequests) (args : CreatedEventArgs) :
    (s.has args.requesterAddress = false →
      handleLogValentineRequestCreated s (Except.ok args)
        = ⟨s.requests ++ [args.toRequest]⟩) ∧
    args.toRequest.wasAccepted = false ∧
    (s.has args.requesterAddress = true →
      handleLogValentineRequestCreated s (Except.ok args) = s) ∧
    (handleLogValentineRequestCreated
        (handleLogValentineRequestCreated s (Except.ok args)) (Except.ok args)
      = handleLogValentineRequestCreated s (Except.ok args)) ∧
    (uniqueKeys s → uniqueKeys (handleLogValentineRequestCreated s (Except.ok args))) := by
  have hkey : args.toRequest.requesterAddress = args.requesterAddress := rfl
  refine ⟨?_, rfl, ?_, ?_, ?_⟩
  · intro hhas
    have hadd := add_ok_of_not_has s args.toRequest (by rw [hkey]; exact hhas)
    simp only [handleLogValentineRequestCreated, hkey, hhas, Bool.not_false, if_true, hadd]
  · intro hhas
    simp [handleLogValentineRequestCreated, hkey, hhas]
  · by_cases hhas : s.has args.requesterAddress = true
    · simp [handleLogValentineRequestCreated, hkey, hhas]
    · rw [Bool.not_eq_true] at hhas
      have hfirst : handleLogValentineRequestCreated s (Except.ok args)
          = ⟨s.requests ++ [args.toRequest]⟩ := by
        simp only [handleLogValentineRequestCreated, hkey, hhas, Bool.not_false, if_true]
        rw [add_ok_of_not_has s args.toRequest (by rw [hkey]; exact hhas)]
      rw [hfirst]
      have hhas2 : (⟨s.requests ++ [args.toRequest]⟩ : ValentineRequests).has
          args.requesterAddress = true := by
        unfold ValentineRequests.has
        rw [List.any_append]
        simp [hkey]
      simp [handleLogValentineRequestCreated, hkey, hhas2]
  · intro hu
    by_cases hhas : s.has args.requesterAddress = true
    · simp [handleLogValentineRequestCreated, hkey, hhas]
      exact hu
    · rw [Bool.not_eq_true] at hhas
      have hfirst : handleLogValentineRequestCreated s (Except.ok args)
          = ⟨s.requests ++ [args.toRequest]⟩ := by
        simp only [handleLogValentineRequestCreated, hkey, hhas, Bool.not_false, if_true]
        rw [add_ok_of_not_has s args.toRequest (by rw [hkey]; exact hhas)]
      rw [hfirst]
      exact uniqueKeys_append_single s args.toRequest (by rw [hkey]; exact hhas) hu

/-- C5 witness: delivering `sampleCreatedArgs` to the one-entry sample store
(which does not contain its key) appends it once; a second delivery of the
same event changes nothing. -/
theorem creation_event_idempotent_witness :
    handleLogValentineRequestCreated sampleStore (Except.ok sampleCreatedArgs)
      = ⟨sampleStore.requests ++ [sampleCreatedArgs.toRequest]⟩ ∧
    handleLogValentineRequestCreated
        (handleLogValentineRequestCreated sampleStore (Except.ok sampleCreatedArgs))
        (Except.ok sampleCreatedArgs)
      = handleLogValentineRequestCreated sampleStore (Except.ok sampleCreatedArgs) ∧
    uniqueKeys (handleLogValentineRequestCreated sampleStore (Except.ok sampleCreatedArgs)) :=
  ⟨(creation_event_idempotent sampleStore sampleCreatedArgs).1 (by decide),
   (creation_event_idempotent sampleStore sampleCreatedArgs).2.2.2.1,
   (creation_event_idempotent sampleStore sampleCreatedArgs).2.2.2.2
     (by simp [uniqueKeys, sampleStore])⟩

/-- C1 counterexample: against a ledger reporting one entity whose wire row
is the "non-existent" placeholder, the bulk load completes without error
and `getAll()` holds that placeholder: `_getExistingRequestsAsync` adds
every decoded row and filters nothing, so the store is not the
placeholder-filtered list the claim describes. -/
theorem bulk_load_keeps_placeholder :
    (getExistingRequestsAsync placeholderLedgerEnv ValentineRequests.empty).2.2 = none ∧
    (getExistingRequestsAsync placeholderLedgerEnv ValentineRequests.empty).1.getAll
      = [placeholderRequest] ∧
    doesRequestExist placeholderRequest = false ∧
    List.filter (fun r => doesRequestExist r)
        (getExistingRequestsAsync placeholderLedgerEnv ValentineRequests.empty).1.getAll
      ≠ (getExistingRequestsAsync placeholderLedgerEnv ValentineRequests.empty).1.getAll :=
  ⟨rfl, rfl, by decide, by decide⟩

/-- C1 (amended): a bulk load that completes without a thrown error leaves
`getAll()` holding exactly the decoded wire rows of indices
`0..numRequesters-1`, in index order with pairwise-distinct keys (a
duplicate key aborts the load with an error), independent of the store's
prior contents — the clear comes first, as the leading trace step shows.
Placeholder rows are not filtered. -/
theorem bulk_load_exact_decoded_entities (env : Env) (s : ValentineRequests)
    (n : Nat) (f : Nat → RequestArr)
    (hn : env.numRequesters = Except.ok n)
    (hf : ∀ i, i < n → env.getRequestByIndex i = Except.ok (f i))
    (hok : (getExistingRequestsAsync env s).2.2 = none) :
    (getExistingRequestsAsync env s).1.getAll
      = (List.range n).map (fun i => convertRequestArrToObj (f i)) ∧
    uniqueKeys (getExistingRequestsAsync env s).1 ∧
    (getExistingRequestsAsync env s).2.1.head? = some BootAction.clearStore := by
  have hf0 : ∀ j, j < n → env.getRequestByIndex (0 + j) = Except.ok (f (0 + j)) := by
    intro j hj
    simpa using hf j hj
  unfold getExistingRequestsAsync at hok ⊢
  simp only [hn] at hok ⊢
  have hmain := loadLoop_ok env f n 0 (s.clearAll) hf0 hok
  refine ⟨?_, ?_, rfl⟩
  · have h1 := hmain.1
    simp only [ValentineRequests.clearAll, List.nil_append, Nat.zero_add] at h1
    simpa [ValentineRequests.getAll, Nat.zero_add] using h1
  · exact hmain.2 (by simp [uniqueKeys, ValentineRequests.clearAll])

/-- C1 witness: loading a one-entity ledger over a non-empty prior store
yields exactly the decoded entity, unique keys, and a leading clear step. -/
theorem bulk_load_exact_decoded_entities_witness :
    (getExistingRequestsAsync oneEntityEnv sampleStore).1.getAll
      = (List.range 1).map (fun i => convertRequestArrToObj ((fun _ => sampleArr) i)) ∧
    uniqueKeys (getExistingRequestsAsync oneEntityEnv sampleStore).1 ∧
    (getExistingRequestsAsync oneEntityEnv sampleStore).2.1.head?
      = some BootAction.clearStore :=
  bulk_load_exact_decoded_entities oneEntityEnv sampleStore 1
    (fun _ => sampleArr) rfl (fun _ _ => rfl) rfl
